import Mathlib

/-!
Verification of the LLMify front-end analysis layer.

This file gives a shallow embedding, in Lean, of the pure logic of the
LLMify dashboard pages and API client (Next.js/TypeScript sources), plus a
model of the backend query-run orchestrator where the claims concern backend
behaviour whose FastAPI sources are not part of this tree.  Numbers that are
JavaScript floats are modelled as rationals; a JavaScript division that
produces NaN or Infinity is modelled as `none`.
-/

namespace LLMify

/-! ## Gaps page: data model and categorisation -/

/-- One response attached to a gap, as in the `GapResponse` interface of the
gaps page. -/
structure GapResponse where
  source : String
  brand_mentioned : Bool
  brand_position : Option String
  context_type : Option String
  competitors_found : Option String
  response_preview : Option String
  full_response : Option String
deriving DecidableEq

/-- One gap record, as in the `Gap` interface of the gaps page. -/
structure Gap where
  query : String
  category : String
  brand_mentioned : Bool
  has_competitors : Bool
  competitors : List String
  mentioned_sources : List String
  missing_sources : List String
  responses : List GapResponse
deriving DecidableEq

/-- The four category values `getCategoryType` can return.  The UI labels
them, via `getCategoryConfig`, as Exclusive Win, Critical Gap, Competitive
and Blue Ocean respectively. -/
inductive CategoryType where
  | win
  | critical
  | competitive
  | blue_ocean
deriving DecidableEq

/-- Embeds `getCategoryType` from the gaps page:
if brand mentioned and no competitors, win; if brand not mentioned and
competitors present, critical; if both, competitive; otherwise blue ocean. -/
def getCategoryType (gap : Gap) : CategoryType :=
  if gap.brand_mentioned && !gap.has_competitors then .win
  else if !gap.brand_mentioned && gap.has_competitors then .critical
  else if gap.brand_mentioned && gap.has_competitors then .competitive
  else .blue_ocean

/-- The category filter state of the gaps page:
`'all' | 'critical' | 'wins' | 'blue_ocean'`. -/
inductive GapFilter where
  | all
  | critical
  | wins
  | blue_ocean
deriving DecidableEq

/-- The four counters of the `stats` object computed on the gaps page. -/
structure GapStats where
  wins : Nat
  critical : Nat
  competitive : Nat
  blue_ocean : Nat
deriving DecidableEq

/-- Embeds the `stats` computation of the gaps page: each counter is the
number of gaps whose `getCategoryType` equals the corresponding category. -/
def stats (gaps : List Gap) : GapStats where
  wins := (gaps.filter fun g => decide (getCategoryType g = .win)).length
  critical := (gaps.filter fun g => decide (getCategoryType g = .critical)).length
  competitive := (gaps.filter fun g => decide (getCategoryType g = .competitive)).length
  blue_ocean := (gaps.filter fun g => decide (getCategoryType g = .blue_ocean)).length

/-- Embeds the `filteredGaps` computation of the gaps page. -/
def filteredGaps (filter : GapFilter) (gaps : List Gap) : List Gap :=
  gaps.filter fun gap =>
    match filter with
    | .all => true
    | .critical => decide (getCategoryType gap = .critical)
    | .wins => decide (getCategoryType gap = .win)
    | .blue_ocean => decide (getCategoryType gap = .blue_ocean)

/-! ## Generator page: run progress percentage -/

/-- Embeds the generator page progress computation
`(status.completed_queries / status.total_queries) * 100` (polling effect)
and `(run.completed_queries / run.total_queries) * 100` (progress column).
JavaScript division of finite numbers by 0 yields NaN (0/0) or Infinity,
neither of which is a real percentage; that case is modelled as `none`. -/
def progressPercent (completed total : Nat) : Option ℚ :=
  if total = 0 then none else some ((completed : ℚ) / (total : ℚ) * 100)

/-! ## Competitors page: leaderboard ordering -/

/-- One leaderboard entry, as in the `CompetitorData` interface of the
competitors page. -/
structure CompetitorData where
  name : String
  is_brand : Bool
  mention_count : Nat
  mention_rate : ℚ
  first_third_rate : Option ℚ
  positive_rate : Option ℚ
  unique_queries : Option Nat
deriving DecidableEq

/-- The ordering actually applied on the competitors page: the comparator
`(a, b) => b.mention_rate - a.mention_rate` orders solely by descending
mention rate. -/
def byRateDesc (a b : CompetitorData) : Prop :=
  b.mention_rate ≤ a.mention_rate

instance : DecidableRel byRateDesc := fun a b =>
  inferInstanceAs (Decidable (b.mention_rate ≤ a.mention_rate))

instance : IsTotal CompetitorData byRateDesc :=
  ⟨fun a b => le_total b.mention_rate a.mention_rate⟩

instance : IsTrans CompetitorData byRateDesc :=
  ⟨fun _ _ _ h1 h2 => le_trans h2 h1⟩

/-- Embeds `analysis.comparison.sort((a, b) => b.mention_rate - a.mention_rate)`
from the competitors page.  `Array.prototype.sort` is a stable sort, and with
this comparator it stably sorts by `mention_rate` descending; it is modelled
by Mathlib's stable insertion sort under `byRateDesc`. -/
def sortedComparison (comparison : List CompetitorData) : List CompetitorData :=
  comparison.insertionSort byRateDesc

/-- The ordering the specification claims for the leaderboard: descending
mention rate, ties broken by descending mention count, then alphabetically
by name.  Modelled from the spec, for comparison with `sortedComparison`. -/
def specLeaderboardOrder (a b : CompetitorData) : Prop :=
  b.mention_rate < a.mention_rate ∨
    (a.mention_rate = b.mention_rate ∧
      (b.mention_count < a.mention_count ∨
        (a.mention_count = b.mention_count ∧ a.name ≤ b.name)))

instance : DecidableRel specLeaderboardOrder := fun _ _ =>
  inferInstanceAs (Decidable (_ ∨ _))

/-! ## Query-run lifecycle (orchestrator model)

The FastAPI backend that owns the QueryRun lifecycle is not part of this
source tree; the model below is taken from the specification of the Query
Run Orchestrator: a run is created with `status = pending` and
`completed_queries = 0`, transitions to `running` when dispatch begins, each
terminal per-call outcome increments `completed_queries` by one, and when
`completed_queries` reaches `total_queries` the status becomes `completed`
or `failed` (terminal states). -/

/-- Run status values: pending, running, completed, failed. -/
inductive RunStatus where
  | pending
  | running
  | completed
  | failed
deriving DecidableEq

/-- Whether a status is terminal (completed or failed). -/
def RunStatus.isTerminal : RunStatus → Bool
  | .completed => true
  | .failed => true
  | _ => false

/-- The progress-relevant part of a QueryRun row. -/
structure RunState where
  status : RunStatus
  total_queries : Nat
  completed_queries : Nat
deriving DecidableEq

/-- Modelled from the spec: one orchestrator-side mutation of a run.
Dispatch starts (`pending → running`); a per-call terminal outcome
increments `completed_queries`; the increment that reaches `total_queries`
moves the run to `completed` (some call succeeded) or `failed` (all calls
failed).  Terminal states have no outgoing transitions. -/
inductive OrchStep : RunState → RunState → Prop where
  | start (n : Nat) : OrchStep ⟨.pending, n, 0⟩ ⟨.running, n, 0⟩
  | call_done (n c : Nat) (h : c + 1 < n) :
      OrchStep ⟨.running, n, c⟩ ⟨.running, n, c + 1⟩
  | finish_completed (n c : Nat) (h : c + 1 = n) :
      OrchStep ⟨.running, n, c⟩ ⟨.completed, n, c + 1⟩
  | finish_failed (n c : Nat) (h : c + 1 = n) :
      OrchStep ⟨.running, n, c⟩ ⟨.failed, n, c + 1⟩

/-- The state of a freshly submitted run: pending, nothing completed.
The orchestrator validates that the query list is non-empty, so
`total_queries` is positive for every run it creates. -/
def initRun (n : Nat) : RunState := ⟨.pending, n, 0⟩

/-- Reachability along orchestrator steps. -/
def RunReachable (s t : RunState) : Prop := Relation.ReflTransGen OrchStep s t

/-- Inductive invariant of the run lifecycle. -/
def RunInv (n : Nat) (s : RunState) : Prop :=
  s.total_queries = n ∧ 0 < n ∧
    match s.status with
    | .pending => s.completed_queries = 0
    | .running => s.completed_queries < s.total_queries
    | .completed => s.completed_queries = s.total_queries
    | .failed => s.completed_queries = s.total_queries

/-! ## Generator page: status polling -/

/-- Shape of the JSON returned by the run-status endpoint as consumed by the
generator page's polling effect. -/
structure StatusResponse where
  status : String
  completed_queries : Nat
  total_queries : Nat
deriving DecidableEq

/-- The generator page state touched by the polling effect. -/
structure PollState where
  activeRunId : Option Int
  running : Bool
  progress : Option ℚ
deriving DecidableEq

/-- Embeds one tick of the polling interval on the generator page: set the
progress from the fetched status and, when the status is completed or
failed, set `activeRunId` to null and `running` to false (whereupon the
effect keyed on `activeRunId` re-runs, clearing the interval). -/
def pollTick (s : PollState) (st : StatusResponse) : PollState :=
  let s1 : PollState :=
    { s with progress := progressPercent st.completed_queries st.total_queries }
  if st.status = "completed" ∨ st.status = "failed" then
    { s1 with activeRunId := none, running := false }
  else s1

/-- The polling effect installs an interval exactly when `activeRunId` is
truthy (`if (activeRunId)`): JavaScript treats both null and 0 as falsy. -/
def pollingActive (s : PollState) : Bool :=
  match s.activeRunId with
  | none => false
  | some i => i != 0

/-! ## API client: branded-filter parameter mapping -/

/-- The branded filter state shared by the dashboard, analysis, gaps,
competitors and trends pages: `'all' | 'branded' | 'non_branded'`. -/
inductive BrandedFilter where
  | all
  | branded
  | non_branded
deriving DecidableEq

/-- Embeds `filter === 'all' ? null : filter === 'branded'`, the expression
every page uses to turn its filter state into the `branded` argument of the
API client (null modelled as `none`). -/
def toBrandedParam : BrandedFilter → Option Bool
  | .all => none
  | .branded => some true
  | .non_branded => some false

/-- Embeds `getRunAnalysisSummary`'s URL construction: the `branded` query
parameter is appended exactly when the argument is neither undefined nor
null (both modelled as `none`); `?branded=${branded}` interpolates the
boolean as "true"/"false". -/
def getRunAnalysisSummaryUrl (runId : Nat) (branded : Option Bool) : String :=
  let url := "/analysis/runs/" ++ toString runId ++ "/summary"
  match branded with
  | none => url
  | some b => url ++ "?branded=" ++ (if b then "true" else "false")

/-- Embeds `getGapAnalysis`'s URL construction. -/
def getGapAnalysisUrl (runId : Nat) (branded : Option Bool) : String :=
  let url := "/analysis/runs/" ++ toString runId ++ "/gaps"
  match branded with
  | none => url
  | some b => url ++ "?branded=" ++ (if b then "true" else "false")

/-- Embeds `getCompetitorAnalysis`'s URL construction. -/
def getCompetitorAnalysisUrl (runId : Nat) (branded : Option Bool) : String :=
  let url := "/analysis/runs/" ++ toString runId ++ "/competitors"
  match branded with
  | none => url
  | some b => url ++ "?branded=" ++ (if b then "true" else "false")

/-- Embeds `getTimeSeriesData`'s URL construction: `days` is always present,
so `branded` is appended with `&`. -/
def getTimeSeriesDataUrl (days : Nat) (branded : Option Bool) : String :=
  let url := "/analysis/time-series?days=" ++ toString days
  match branded with
  | none => url
  | some b => url ++ "&branded=" ++ (if b then "true" else "false")

/-- Embeds `getMentionRatesBySource`'s URL construction. -/
def getMentionRatesBySourceUrl (branded : Option Bool) : String :=
  let url := "/analysis/mention-rates-by-source"
  match branded with
  | none => url
  | some b => url ++ "?branded=" ++ (if b then "true" else "false")

/-- Embeds `getCitationAnalysis`'s URL construction: it takes no branded
argument and never carries a branded parameter. -/
def getCitationAnalysisUrl (runId : Nat) : String :=
  "/analysis/runs/" ++ toString runId ++ "/citations"

/-- The query-string fragment a branded filter should map to, per the
claimed mapping: omitted for all, `branded=true` for branded,
`branded=false` for non-branded. -/
def brandedSuffix : BrandedFilter → String
  | .all => ""
  | .branded => "?branded=true"
  | .non_branded => "?branded=false"

/-- Same as `brandedSuffix` but appended with `&`, as on the time-series
endpoint whose URL already carries a `days` parameter. -/
def brandedAmpSuffix : BrandedFilter → String
  | .all => ""
  | .branded => "&branded=true"
  | .non_branded => "&branded=false"

/-! ## Generator page: custom query submission -/

/-- Model of `split('\n')` on the underlying character list: split at every newline
character, keeping empty pieces, as JavaScript `String.prototype.split`
does. -/
def splitNl : List Char → List (List Char)
  | [] => [[]]
  | c :: cs =>
    match splitNl cs with
    | [] => [[]]
    | l :: ls => if c = '\n' then [] :: l :: ls else (c :: l) :: ls

/-- Embeds `customQueries.split('\n')`. -/
def splitLines (s : String) : List String :=
  (splitNl s.data).map fun l => ⟨l⟩

/-- JavaScript `String.prototype.trim`: strip leading and trailing
whitespace characters. -/
def trimChars (l : List Char) : List Char :=
  ((l.dropWhile Char.isWhitespace).reverse.dropWhile Char.isWhitespace).reverse

/-- Model of `trim()` on strings. -/
def trimString (s : String) : String := ⟨trimChars s.data⟩

/-- Embeds the queries list `handleRunCustom` builds:
`customQueries.split('\n').map((q) => q.trim()).filter((q) => q.length > 0)`. -/
def parseCustomQueries (s : String) : List String :=
  ((splitLines s).map trimString).filter fun q => decide (0 < q.length)

/-- Embeds the decision logic of `handleRunCustom` on the generator page:
the result is the queries list sent with the run-creation request, or `none`
when no request is issued.  The guard `!customQueries.trim()` returns early
on an all-whitespace textarea (empty string is falsy), and an empty parsed
list also returns early; the `client` null-check and the `running` disabled
state are outside the text semantics modelled here. -/
def handleRunCustom (customQueries : String) : Option (List String) :=
  if trimString customQueries = "" then none
  else
    let queries := parseCustomQueries customQueries
    if queries = [] then none else some queries

/-! ## API client: authenticated fetch wrapper -/

/-- The two localStorage entries the auth wrapper reads and removes. -/
structure LocalStorage where
  token : Option String
  user : Option String
deriving DecidableEq

/-- Header construction in `fetchWithAuth`: start from
`'Content-Type': 'application/json'` spread with the caller's headers, then
set `Authorization: Bearer <token>` when a token is present.  Headers are
modelled as an association list; setting the Authorization key is modelled
as appending it (no call site in the API client passes an Authorization
header of its own). -/
def buildHeaders (optionHeaders : List (String × String)) (token : Option String) :
    List (String × String) :=
  let headers := ("Content-Type", "application/json") :: optionHeaders
  match token with
  | none => headers
  | some t => headers ++ [("Authorization", "Bearer " ++ t)]

/-- A fetch response as far as the wrapper inspects it. -/
structure HttpResponse where
  status : Nat
  body : String
deriving DecidableEq

/-- Result of one `fetchWithAuth` call: the request headers sent, the
localStorage contents afterwards, the navigation target set via
`window.location.href` (if any), and the Response value returned to the
caller. -/
structure FetchOutcome where
  sentHeaders : List (String × String)
  store : LocalStorage
  redirect : Option String
  returned : HttpResponse
deriving DecidableEq

/-- Embeds `fetchWithAuth`: attach the Authorization header when a token is
stored; on a 401 response remove the token and user entries and redirect to
/login; return the response to the caller in every case. -/
def fetchWithAuth (store : LocalStorage) (optionHeaders : List (String × String))
    (response : HttpResponse) : FetchOutcome where
  sentHeaders := buildHeaders optionHeaders store.token
  store := if response.status = 401 then { token := none, user := none } else store
  redirect := if response.status = 401 then some "/login" else none
  returned := response

/-! ## Analysis / gaps / competitors pages: run selection -/

/-- A query run as listed on the analysis, gaps and competitors pages
(`QueryRun` interface); `created_at` is an ISO timestamp string, modelled as
a number for chronological comparison. -/
structure QueryRun where
  id : Int
  name : Option String
  status : String
  created_at : Nat
deriving DecidableEq

/-- Embeds `runs.filter((r) => r.status === 'completed')` from
`loadInitialData`, the list put into the run selector. -/
def completedRuns (runs : List QueryRun) : List QueryRun :=
  runs.filter fun r => r.status == "completed"

/-- JavaScript truthiness of the `selectedRunId` state as tested by
`!selectedRunId`: both null and the number 0 are falsy. -/
def jsFalsyId : Option Int → Bool
  | none => true
  | some i => i == 0

/-- Embeds the initial run selection: `selectedRunId` starts as
`runId ? parseInt(runId) : null` from the URL, and `loadInitialData` runs
`if (!selectedRunId && completedRuns.length > 0)
setSelectedRunId(completedRuns[0].id)`. -/
def selectRun (urlRunId : Option Int) (runs : List QueryRun) : Option Int :=
  if jsFalsyId urlRunId = true ∧ 0 < (completedRuns runs).length then
    (completedRuns runs).head?.map (·.id)
  else urlRunId

/-! ## Theorems -/

/-- C1. For every gap record, described by the booleans `brand_mentioned`
and `has_competitors`, `getCategoryType` assigns exactly one of the four
categories, and the assignment is: win (exclusive win) iff the brand is
mentioned and no competitor is, critical (critical gap) iff the brand is not
mentioned and a competitor is, competitive iff both are, and blue ocean iff
neither is.  Being a total function, the categorisation is exhaustive and
mutually exclusive. -/
theorem c1_getCategoryType_characterisation (g : Gap) :
    (getCategoryType g = .win ↔ (g.brand_mentioned = true ∧ g.has_competitors = false)) ∧
    (getCategoryType g = .critical ↔ (g.brand_mentioned = false ∧ g.has_competitors = true)) ∧
    (getCategoryType g = .competitive ↔ (g.brand_mentioned = true ∧ g.has_competitors = true)) ∧
    (getCategoryType g = .blue_ocean ↔ (g.brand_mentioned = false ∧ g.has_competitors = false)) := by
  obtain ⟨q, cat, bm, hc, cs, ms, mis, rs⟩ := g
  cases bm <;> cases hc <;> simp [getCategoryType]

/-- Helper for C10: the four counters sum to the number of gaps, because
`getCategoryType` assigns exactly one category to each gap. -/
theorem stats_sum_eq_length (gaps : List Gap) :
    (stats gaps).wins + (stats gaps).critical + (stats gaps).competitive
      + (stats gaps).blue_ocean = gaps.length := by
  induction gaps with
  | nil => rfl
  | cons g gs ih =>
    simp only [stats] at ih ⊢
    cases h : getCategoryType g <;>
      simp [List.filter_cons, h] <;> omega

/-- C10. On the gaps page the four counters (wins, critical, competitive,
blue ocean) are the numbers of gaps whose `getCategoryType` value is the
corresponding category, so they sum exactly to the length of the gaps list;
and with the category filter set to all, the filtered gap list equals the
full gaps list. -/
theorem c10_stats_partition_and_all_filter (gaps : List Gap) :
    (stats gaps).wins + (stats gaps).critical + (stats gaps).competitive
        + (stats gaps).blue_ocean = gaps.length ∧
      filteredGaps .all gaps = gaps := by
  refine ⟨stats_sum_eq_length gaps, ?_⟩
  simp [filteredGaps]

/-- C2 counterexample. For a run status with `total_queries = 0` the
generator page's progress computation does not produce 0: the JavaScript
division 0/0 yields NaN, modelled here as `none`, which is not `some 0`. -/
theorem c2_zero_denominator_not_zero : progressPercent 0 0 ≠ some 0 := by
  simp [progressPercent]

/-- C2 (amended). The generator page computes the progress percentage as
`completed_queries / total_queries * 100` with no zero-denominator guard:
when `total_queries = 0` the division yields no real percentage (NaN in
JavaScript); for every run status with `total_queries > 0` and
`completed_queries ≤ total_queries` it is a real number between 0 and 100. -/
theorem c2_progress_bounds (completed total : Nat) (hpos : 0 < total)
    (hle : completed ≤ total) :
    ∃ p : ℚ, progressPercent completed total = some p ∧ 0 ≤ p ∧ p ≤ 100 := by
  refine ⟨(completed : ℚ) / (total : ℚ) * 100, ?_, ?_, ?_⟩
  · simp [progressPercent, Nat.pos_iff_ne_zero.mp hpos]
  · positivity
  · have ht : (0 : ℚ) < (total : ℚ) := by exact_mod_cast hpos
    have h1 : (completed : ℚ) / (total : ℚ) ≤ 1 := by
      rw [div_le_one ht]
      exact_mod_cast hle
    nlinarith

/-- C2 witness: the amended statement at `completed = 1`, `total = 2`. -/
theorem c2_progress_bounds_witness :
    ∃ p : ℚ, progressPercent 1 2 = some p ∧ 0 ≤ p ∧ p ≤ 100 :=
  c2_progress_bounds 1 2 (by decide) (by decide)

/-- C3 counterexample. On a comparison list with two entries of equal
mention rate, the rendered order is not the spec's tie-broken order (the
entry with the larger mention count stays second), and the output depends on
the input order, so the displayed ranking is not deterministic in the sense
claimed. -/
theorem c3_no_tie_break_counterexample :
    ¬ (sortedComparison
        [⟨"B", false, 1, 50, none, none, none⟩, ⟨"A", false, 5, 50, none, none, none⟩]).Sorted
          specLeaderboardOrder ∧
      sortedComparison
          [⟨"B", false, 1, 50, none, none, none⟩, ⟨"A", false, 5, 50, none, none, none⟩] ≠
        sortedComparison
          [⟨"A", false, 5, 50, none, none, none⟩, ⟨"B", false, 1, 50, none, none, none⟩] := by
  constructor
  · decide
  · decide

/-- C3 (amended). The leaderboard on the competitors page is sorted by
descending `mention_rate` only, as a stable sort of the input comparison
list (a permutation of it); no mention-count or name tie-break is applied,
so entries with equal mention rate keep their input order. -/
theorem c3_sortedComparison_rate_desc (comparison : List CompetitorData) :
    (sortedComparison comparison).Sorted byRateDesc ∧
      (sortedComparison comparison).Perm comparison :=
  ⟨List.sorted_insertionSort byRateDesc comparison,
   List.perm_insertionSort byRateDesc comparison⟩

theorem runInv_init (n : Nat) (h : 0 < n) : RunInv n (initRun n) := ⟨rfl, h, rfl⟩

theorem runInv_step {n : Nat} {s t : RunState} (hs : RunInv n s) (st : OrchStep s t) :
    RunInv n t := by
  obtain ⟨h1, h2, h3⟩ := hs
  cases st <;> simp_all [RunInv]

theorem runInv_reachable {n : Nat} {s : RunState} (h0 : 0 < n)
    (h : RunReachable (initRun n) s) : RunInv n s := by
  induction h with
  | refl => exact runInv_init n h0
  | tail _ st ih => exact runInv_step ih st

theorem completed_mono_step {s t : RunState} (st : OrchStep s t) :
    s.completed_queries ≤ t.completed_queries := by
  cases st <;> simp

theorem completed_mono {s t : RunState} (h : RunReachable s t) :
    s.completed_queries ≤ t.completed_queries := by
  induction h with
  | refl => exact le_refl _
  | tail _ st ih => exact le_trans ih (completed_mono_step st)

/-- C4. For every run the orchestrator can produce from a submitted batch,
`completed_queries` never exceeds `total_queries` and is monotonically
non-decreasing along the run's evolution, the status is terminal (completed
or failed) exactly when `completed_queries = total_queries`, and for a
terminal run the progress fraction `completed_queries / total_queries`
is exactly 1. -/
theorem c4_run_progress_invariants :
    (∀ (n : Nat) (s : RunState), 0 < n → RunReachable (initRun n) s →
      s.completed_queries ≤ s.total_queries ∧
        (s.status.isTerminal = true ↔ s.completed_queries = s.total_queries) ∧
        (s.status.isTerminal = true →
          (s.completed_queries : ℚ) / (s.total_queries : ℚ) = 1)) ∧
    (∀ s t : RunState, RunReachable s t →
      s.completed_queries ≤ t.completed_queries) := by
  constructor
  · intro n s hn hr
    have hi := runInv_reachable hn hr
    obtain ⟨h1, h2, h3⟩ := hi
    have htpos : 0 < s.total_queries := h1 ▸ h2
    cases hs : s.status <;> simp_all [RunStatus.isTerminal, RunInv] <;>
      first
        | omega
        | exact div_self (by exact_mod_cast Nat.pos_iff_ne_zero.mp h2)
  · intro s t h
    exact completed_mono h

/-- C4 witness: the invariants at a concrete completed run, reached from
`initRun 1` by starting dispatch and finishing its single call, and
monotonicity along the empty trajectory from `initRun 1`. -/
theorem c4_run_progress_invariants_witness :
    ((⟨.completed, 1, 1⟩ : RunState).completed_queries ≤
        (⟨.completed, 1, 1⟩ : RunState).total_queries ∧
      ((⟨.completed, 1, 1⟩ : RunState).status.isTerminal = true ↔
        (⟨.completed, 1, 1⟩ : RunState).completed_queries =
          (⟨.completed, 1, 1⟩ : RunState).total_queries) ∧
      ((⟨.completed, 1, 1⟩ : RunState).status.isTerminal = true →
        ((⟨.completed, 1, 1⟩ : RunState).completed_queries : ℚ) /
            ((⟨.completed, 1, 1⟩ : RunState).total_queries : ℚ) = 1)) ∧
    (initRun 1).completed_queries ≤ (initRun 1).completed_queries :=
  ⟨c4_run_progress_invariants.1 1 ⟨.completed, 1, 1⟩ (by decide)
      (Relation.ReflTransGen.tail (Relation.ReflTransGen.single (OrchStep.start 1))
        (OrchStep.finish_completed 1 0 rfl)),
   c4_run_progress_invariants.2 (initRun 1) (initRun 1) Relation.ReflTransGen.refl⟩

/-- C5. Along any orchestrator step a run's status either stays `running` or
advances along pending → running → terminal, and terminal states have no
outgoing steps, so the status transitions at most once along that chain; on
the generator page, a polled status that is completed or failed clears
`activeRunId` to null, sets `running` to false and deactivates polling (no
further status requests are issued), while a non-terminal polled status
leaves `activeRunId` and `running` unchanged (polling continues). -/
theorem c5_status_chain_and_poll_termination :
    (∀ s t : RunState, OrchStep s t →
      ((s.status = .pending ∧ t.status = .running) ∨
        (s.status = .running ∧ t.status = .running) ∨
        (s.status = .running ∧ (t.status = .completed ∨ t.status = .failed))) ∧
      s.status.isTerminal = false) ∧
    (∀ (s : PollState) (st : StatusResponse),
      st.status = "completed" ∨ st.status = "failed" →
        (pollTick s st).activeRunId = none ∧ (pollTick s st).running = false ∧
          pollingActive (pollTick s st) = false) ∧
    (∀ (s : PollState) (st : StatusResponse),
      st.status ≠ "completed" → st.status ≠ "failed" →
        (pollTick s st).activeRunId = s.activeRunId ∧
          (pollTick s st).running = s.running) := by
  refine ⟨fun s t hst => ?_, fun s st hterm => ?_, fun s st h1 h2 => ?_⟩
  · cases hst <;> simp [RunStatus.isTerminal]
  · simp [pollTick, hterm, pollingActive]
  · simp [pollTick, h1, h2]

/-- C5 witness: the three parts at concrete inputs — the start step of a
one-query run, a poll observing a completed status, and a poll observing a
running status. -/
theorem c5_status_chain_and_poll_termination_witness :
    ((((initRun 1).status = .pending ∧ (⟨.running, 1, 0⟩ : RunState).status = .running) ∨
        ((initRun 1).status = .running ∧ (⟨.running, 1, 0⟩ : RunState).status = .running) ∨
        ((initRun 1).status = .running ∧
          ((⟨.running, 1, 0⟩ : RunState).status = .completed ∨
            (⟨.running, 1, 0⟩ : RunState).status = .failed))) ∧
      (initRun 1).status.isTerminal = false) ∧
    ((pollTick ⟨some 5, true, none⟩ ⟨"completed", 3, 3⟩).activeRunId = none ∧
      (pollTick ⟨some 5, true, none⟩ ⟨"completed", 3, 3⟩).running = false ∧
      pollingActive (pollTick ⟨some 5, true, none⟩ ⟨"completed", 3, 3⟩) = false) ∧
    ((pollTick ⟨some 5, true, none⟩ ⟨"running", 1, 3⟩).activeRunId =
        (⟨some 5, true, none⟩ : PollState).activeRunId ∧
      (pollTick ⟨some 5, true, none⟩ ⟨"running", 1, 3⟩).running =
        (⟨some 5, true, none⟩ : PollState).running) :=
  ⟨c5_status_chain_and_poll_termination.1 (initRun 1) ⟨.running, 1, 0⟩ (OrchStep.start 1),
   c5_status_chain_and_poll_termination.2.1 ⟨some 5, true, none⟩ ⟨"completed", 3, 3⟩
     (Or.inl rfl),
   c5_status_chain_and_poll_termination.2.2 ⟨some 5, true, none⟩ ⟨"running", 1, 3⟩
     (by decide) (by decide)⟩

/-- C6. For every branded-filter selection, the issued request carries
`branded=true` exactly when the filter is branded, `branded=false` exactly
when it is non-branded, and omits the parameter exactly when it is all; the
mapping is identical across the summary, gaps, competitors, time-series and
mention-rates-by-source endpoints, and the citation-analysis URL never
carries a branded parameter. -/
theorem c6_branded_param_mapping (f : BrandedFilter) (runId days : Nat) :
    (toBrandedParam f = some true ↔ f = .branded) ∧
    (toBrandedParam f = some false ↔ f = .non_branded) ∧
    (toBrandedParam f = none ↔ f = .all) ∧
    getRunAnalysisSummaryUrl runId (toBrandedParam f) =
      "/analysis/runs/" ++ toString runId ++ "/summary" ++ brandedSuffix f ∧
    getGapAnalysisUrl runId (toBrandedParam f) =
      "/analysis/runs/" ++ toString runId ++ "/gaps" ++ brandedSuffix f ∧
    getCompetitorAnalysisUrl runId (toBrandedParam f) =
      "/analysis/runs/" ++ toString runId ++ "/competitors" ++ brandedSuffix f ∧
    getTimeSeriesDataUrl days (toBrandedParam f) =
      "/analysis/time-series?days=" ++ toString days ++ brandedAmpSuffix f ∧
    getMentionRatesBySourceUrl (toBrandedParam f) =
      "/analysis/mention-rates-by-source" ++ brandedSuffix f ∧
    getCitationAnalysisUrl runId =
      "/analysis/runs/" ++ toString runId ++ "/citations" := by
  cases f <;>
    refine ⟨by simp [toBrandedParam], by simp [toBrandedParam], by simp [toBrandedParam],
      ?_, ?_, ?_, ?_, ?_, rfl⟩ <;>
    simp [getRunAnalysisSummaryUrl, getGapAnalysisUrl, getCompetitorAnalysisUrl,
      getTimeSeriesDataUrl, getMentionRatesBySourceUrl, toBrandedParam,
      brandedSuffix, brandedAmpSuffix, String.append_assoc]

/-- C7. For every textarea content, when the generator page issues a
run-creation request its queries list is exactly the trimmed non-empty
lines of the text in their original order, and that list is non-empty; and
when the list of trimmed non-empty lines is empty, no request is issued. -/
theorem c7_custom_queries_submission (s : String) (qs : List String) :
    (handleRunCustom s = some qs → qs = parseCustomQueries s ∧ qs ≠ []) ∧
    (parseCustomQueries s = [] → handleRunCustom s = none) := by
  constructor
  · intro h
    by_cases h0 : trimString s = ""
    · simp [handleRunCustom, h0] at h
    · by_cases hq : parseCustomQueries s = []
      · simp [handleRunCustom, h0, hq] at h
      · simp [handleRunCustom, h0, hq] at h
        exact ⟨h.symm, h ▸ hq⟩
  · intro h
    by_cases h0 : trimString s = ""
    · simp [handleRunCustom, h0]
    · simp [handleRunCustom, h0, h]

/-- C7 witness: a textarea with blank lines and surrounding whitespace
submits exactly the trimmed non-empty lines in order, and an all-whitespace
textarea issues no request. -/
theorem c7_custom_queries_submission_witness :
    (["hello", "world"] = parseCustomQueries "hello\n\n world \n" ∧
      (["hello", "world"] : List String) ≠ []) ∧
    handleRunCustom " \n  " = none :=
  ⟨(c7_custom_queries_submission "hello\n\n world \n" ["hello", "world"]).1 (by decide),
   (c7_custom_queries_submission " \n  " []).2 (by decide)⟩

/-- C8. For every call through `fetchWithAuth` (whose call sites never pass
an Authorization header of their own), the Authorization header is attached
exactly when a token is present in localStorage; if the server responds 401
the stored token and user entries are removed and the browser is redirected
to /login; for any other status the store is untouched and no redirect
happens; and in every case the response is returned to the caller
unchanged. -/
theorem c8_fetchWithAuth_behaviour (store : LocalStorage)
    (opts : List (String × String)) (r : HttpResponse)
    (hopt : ∀ p ∈ opts, p.1 ≠ "Authorization") :
    (("Authorization" ∈ ((fetchWithAuth store opts r).sentHeaders.map Prod.fst)) ↔
        store.token.isSome = true) ∧
    (r.status = 401 →
      (fetchWithAuth store opts r).store = ⟨none, none⟩ ∧
        (fetchWithAuth store opts r).redirect = some "/login") ∧
    (r.status ≠ 401 →
      (fetchWithAuth store opts r).store = store ∧
        (fetchWithAuth store opts r).redirect = none) ∧
    (fetchWithAuth store opts r).returned = r := by
  refine ⟨?_, fun h => ?_, fun h => ?_, rfl⟩
  · cases htok : store.token with
    | none =>
      simp only [fetchWithAuth, buildHeaders, htok]
      constructor
      · intro hmem
        exfalso
        simp only [List.map_cons, List.mem_cons, List.mem_map] at hmem
        rcases hmem with h1 | ⟨p, hp, hp1⟩
        · exact absurd h1.symm (by decide)
        · exact hopt p hp hp1
      · intro hcontra
        simp at hcontra
    | some t =>
      simp [fetchWithAuth, buildHeaders, htok]
  · simp [fetchWithAuth, h]
  · simp [fetchWithAuth, h]

/-- C8 witness: with a stored token and no caller headers, a 401 response
clears the store and redirects to /login, and a 200 response leaves the
store untouched with no redirect; both responses are returned unchanged. -/
theorem c8_fetchWithAuth_behaviour_witness :
    ((("Authorization" ∈
          ((fetchWithAuth ⟨some "tok", some "u"⟩ [] ⟨401, ""⟩).sentHeaders.map Prod.fst)) ↔
        (Option.some "tok").isSome = true) ∧
      ((401 : Nat) = 401 →
        (fetchWithAuth ⟨some "tok", some "u"⟩ [] ⟨401, ""⟩).store = ⟨none, none⟩ ∧
          (fetchWithAuth ⟨some "tok", some "u"⟩ [] ⟨401, ""⟩).redirect = some "/login") ∧
      ((401 : Nat) ≠ 401 →
        (fetchWithAuth ⟨some "tok", some "u"⟩ [] ⟨401, ""⟩).store = ⟨some "tok", some "u"⟩ ∧
          (fetchWithAuth ⟨some "tok", some "u"⟩ [] ⟨401, ""⟩).redirect = none) ∧
      (fetchWithAuth ⟨some "tok", some "u"⟩ [] ⟨401, ""⟩).returned = ⟨401, ""⟩) ∧
    ((fetchWithAuth ⟨some "tok", some "u"⟩ [] ⟨200, "ok"⟩).store = ⟨some "tok", some "u"⟩ ∧
      (fetchWithAuth ⟨some "tok", some "u"⟩ [] ⟨200, "ok"⟩).redirect = none) :=
  ⟨c8_fetchWithAuth_behaviour ⟨some "tok", some "u"⟩ [] ⟨401, ""⟩ (by simp),
   (c8_fetchWithAuth_behaviour ⟨some "tok", some "u"⟩ [] ⟨200, "ok"⟩ (by simp)).2.2.1
     (by decide)⟩

/-- C9 counterexample. A run id supplied via the URL is not always used
as-is: the guard `!selectedRunId` treats the number 0 as falsy, so with
`?run=0` and a completed run available, the auto-selection overrides the
URL-supplied id. -/
theorem c9_url_run_zero_overridden :
    selectRun (some 0) [⟨1, none, "completed", 100⟩] ≠ some 0 := by decide

/-- C9 (amended). On the analysis, gaps and competitors pages the run
selector contains only completed runs; when the URL carries no run
parameter the first completed run of the fetched list — the most recent
one, the backend returning runs newest-first — is auto-selected; and a
nonzero run id supplied via the URL is used as-is, without checking that
the run exists or is completed (the id 0, being falsy in JavaScript, is
instead treated as an absent parameter). -/
theorem c9_run_selection (runs : List QueryRun) (i : Int)
    (hsorted : runs.Sorted fun a b => b.created_at ≤ a.created_at)
    (hi : i ≠ 0) :
    (∀ r ∈ completedRuns runs, r.status = "completed" ∧ r ∈ runs) ∧
    selectRun (some i) runs = some i ∧
    (completedRuns runs ≠ [] →
      ∃ r0, r0 ∈ runs ∧ r0.status = "completed" ∧
        selectRun none runs = some r0.id ∧
        ∀ r' ∈ runs, r'.status = "completed" → r'.created_at ≤ r0.created_at) := by
  have hmem : ∀ r, r ∈ completedRuns runs ↔ r ∈ runs ∧ r.status = "completed" := by
    intro r
    simp [completedRuns, List.mem_filter]
  refine ⟨fun r hr => ⟨((hmem r).mp hr).2, ((hmem r).mp hr).1⟩, ?_, fun hne => ?_⟩
  · simp [selectRun, jsFalsyId, hi]
  · obtain ⟨r0, rest, hcons⟩ := List.exists_cons_of_ne_nil hne
    have hr0 : r0 ∈ completedRuns runs := by
      rw [hcons]
      exact List.mem_cons_self r0 rest
    have hpair : List.Pairwise (fun a b => b.created_at ≤ a.created_at)
        (completedRuns runs) :=
      List.Sorted.filter _ hsorted
    rw [hcons] at hpair
    have hrest := (List.pairwise_cons.mp hpair).1
    refine ⟨r0, ((hmem r0).mp hr0).1, ((hmem r0).mp hr0).2, ?_, fun r' hr' hst => ?_⟩
    · simp [selectRun, jsFalsyId, hcons]
    · have hr'c : r' ∈ completedRuns runs := (hmem r').mpr ⟨hr', hst⟩
      rw [hcons, List.mem_cons] at hr'c
      rcases hr'c with rfl | hr'rest
      · exact le_refl _
      · exact hrest r' hr'rest

/-- C9 witness: the selection behaviour on a concrete newest-first run list
with a pending run interleaved, and the URL id 7 used as-is. -/
theorem c9_run_selection_witness :
    (∀ r ∈ completedRuns
        [⟨2, none, "completed", 200⟩, ⟨1, none, "pending", 150⟩,
          ⟨3, none, "completed", 100⟩],
      r.status = "completed" ∧
        r ∈ [⟨2, none, "completed", 200⟩, ⟨1, none, "pending", 150⟩,
          (⟨3, none, "completed", 100⟩ : QueryRun)]) ∧
    selectRun (some 7)
        [⟨2, none, "completed", 200⟩, ⟨1, none, "pending", 150⟩,
          ⟨3, none, "completed", 100⟩] = some 7 ∧
    (completedRuns
        [⟨2, none, "completed", 200⟩, ⟨1, none, "pending", 150⟩,
          ⟨3, none, "completed", 100⟩] ≠ [] →
      ∃ r0, r0 ∈ [⟨2, none, "completed", 200⟩, ⟨1, none, "pending", 150⟩,
          (⟨3, none, "completed", 100⟩ : QueryRun)] ∧ r0.status = "completed" ∧
        selectRun none
            [⟨2, none, "completed", 200⟩, ⟨1, none, "pending", 150⟩,
              ⟨3, none, "completed", 100⟩] = some r0.id ∧
        ∀ r' ∈ [⟨2, none, "completed", 200⟩, ⟨1, none, "pending", 150⟩,
            (⟨3, none, "completed", 100⟩ : QueryRun)],
          r'.status = "completed" → r'.created_at ≤ r0.created_at) :=
  c9_run_selection
    [⟨2, none, "completed", 200⟩, ⟨1, none, "pending", 150⟩,
      ⟨3, none, "completed", 100⟩] 7 (by decide) (by decide)

end LLMify
